import Mathlib

/-!
Verification of the StudyOS MCP server's tool registry and request-dispatch
layer (src/server.ts).  The zod input schemas, the backend gateway
`forwardToBackend`, the registered tools and the static discovery manifest
are embedded shallowly; the network is modelled as an oracle value
describing the single outbound fetch's behaviour.
-/

namespace StudyOS

/-- JSON values, as exchanged between caller, dispatcher and collaborator.
Numbers are modelled as rationals. -/
inductive Json where
  | null : Json
  | bool : Bool → Json
  | num : ℚ → Json
  | str : String → Json
  | arr : List Json → Json
  | obj : List (String × Json) → Json

/-- Key lookup in an association list, first match wins (JS object access). -/
def lookupKey {α : Type} (k : String) : List (String × α) → Option α
  | [] => none
  | (n, v) :: rest => if n = k then some v else lookupKey k rest

/-- Base zod types used by the three schemas in src/server.ts. -/
inductive ZBase where
  | string : ZBase
  | number : ZBase
  | enumOf : List String → ZBase
  | arrayOfString : ZBase
deriving DecidableEq

/-- One field of a zod object schema: base type plus the `.nullable()`,
`.optional()` and `.default(d)` modifiers appearing in src/server.ts. -/
structure FieldSpec where
  base : ZBase
  nullable : Bool
  optional : Bool
  dflt : Option Json

/-- The zod builder chain `z.string()`. -/
def zstring : FieldSpec := ⟨.string, false, false, none⟩

/-- The zod builder chain `z.number()`. -/
def znumber : FieldSpec := ⟨.number, false, false, none⟩

/-- The zod builder chain `z.enum(vs)`. -/
def zenum (vs : List String) : FieldSpec := ⟨.enumOf vs, false, false, none⟩

/-- The zod builder chain `z.array(z.string())`. -/
def zarrayString : FieldSpec := ⟨.arrayOfString, false, false, none⟩

/-- The zod modifier chain `.nullable().optional()`. -/
def nullableOptional (f : FieldSpec) : FieldSpec :=
  { f with nullable := true, optional := true }

/-- The zod modifier chain `.optional().default(d)`. -/
def optionalDefault (f : FieldSpec) (d : Json) : FieldSpec :=
  { f with optional := true, dflt := some d }

/-- Is this JSON value a string? -/
def isStrJson : Json → Bool
  | .str _ => true
  | _ => false

/-- Does a present, non-null value satisfy the base zod type? -/
def baseAccepts : ZBase → Json → Bool
  | .string, .str _ => true
  | .number, .num _ => true
  | .enumOf vs, .str s => vs.contains s
  | .arrayOfString, .arr xs => xs.all isStrJson
  | _, _ => false

/-- zod semantics for one declared field, applied to the raw lookup result:
absent uses the default or optionality, explicit null needs `.nullable()`,
any other value must satisfy the base type.  `.ok none` means the optional
field is absent from the normalized output. -/
def parseField (f : FieldSpec) : Option Json → Except Unit (Option Json)
  | none =>
    match f.dflt with
    | some d => .ok (some d)
    | none => if f.optional then .ok none else .error ()
  | some .null => if f.nullable then .ok (some .null) else .error ()
  | some v => if baseAccepts f.base v then .ok (some v) else .error ()

/-- Add a normalized field to the output object, skipping absent fields. -/
def addField (name : String) : Option Json → List (String × Json) → List (String × Json)
  | none, tail => tail
  | some v, tail => (name, v) :: tail

/-- zod object parsing: every declared field is checked against the raw
key-value list, all offending field names are collected (zod reports all
issues in one pass), unknown raw keys are ignored and stripped. -/
def parseObj :
    List (String × FieldSpec) → List (String × Json) →
      Except (List String) (List (String × Json))
  | [], _ => .ok []
  | (name, f) :: rest, kvs =>
    match parseField f (lookupKey name kvs), parseObj rest kvs with
    | .ok v, .ok tail => .ok (addField name v tail)
    | .ok _, .error es => .error es
    | .error _, .ok _ => .error [name]
    | .error _, .error es => .error (name :: es)

/-- The `ingestInput` zod schema of src/server.ts (lines 47-59). -/
def ingestInput : List (String × FieldSpec) :=
  [("course", nullableOptional zstring),
   ("type", nullableOptional zstring),
   ("subtopic", nullableOptional zstring),
   ("assignment_type", nullableOptional zstring),
   ("source_name", nullableOptional zstring),
   ("raw_text", zstring),
   ("original_prompt", nullableOptional zstring),
   ("model_answer", nullableOptional zstring),
   ("outcome", nullableOptional (zenum ["success", "fail"])),
   ("score", nullableOptional znumber),
   ("teacher_feedback", nullableOptional zstring)]

/-- The `searchInput` zod schema of src/server.ts (lines 85-93). -/
def searchInput : List (String × FieldSpec) :=
  [("course", nullableOptional zstring),
   ("query", zstring),
   ("types", nullableOptional zarrayString),
   ("subtopic", nullableOptional zstring),
   ("assignment_type", nullableOptional zstring),
   ("top_k", optionalDefault znumber (.num 8)),
   ("threshold", optionalDefault znumber (.num (3/10)))]

/-- The `logInput` zod schema of src/server.ts (lines 119-128). -/
def logInput : List (String × FieldSpec) :=
  [("course", nullableOptional zstring),
   ("assignment_type", nullableOptional zstring),
   ("subtopic", nullableOptional zstring),
   ("original_prompt", zstring),
   ("model_answer", zstring),
   ("outcome", zenum ["success", "fail"]),
   ("score", nullableOptional znumber),
   ("teacher_feedback", nullableOptional zstring)]

/-- Behaviour of the single outbound `fetch` of an invocation, as an oracle:
either the promise rejects with a transport exception, or a response arrives
with a status, a text body (`none` when unreadable, so `res.text()` is caught
to the empty string) and the result of `res.json()` (`none` when the body is
not parseable as JSON). -/
inductive FetchOutcome where
  | throws : String → FetchOutcome
  | response : Nat → Option String → Option Json → FetchOutcome

/-- A record of one outbound network call: target URL and JSON body. -/
structure FetchCall where
  url : String
  body : Json

/-- What `forwardToBackend` can throw: either an `Error` it constructed
itself (with the given message), or a transport exception from `fetch`
propagating through it unmodified. -/
inductive ThrownError where
  | message : String → ThrownError
  | rawFetch : String → ThrownError

/-- True when the error is one `forwardToBackend` constructed itself, i.e.
a reclassified failure rather than a leaked raw transport exception. -/
def reclassified : ThrownError → Bool
  | .message _ => true
  | .rawFetch _ => false

/-- The function forwardToBackend of src/server.ts (lines 12-36): fail fast when the
backend URL is empty, otherwise issue exactly one POST; a non-ok status
throws "Backend <path> failed: <status> <text>" with the text body decoded
best-effort; an ok status returns the parsed JSON body, or `{ok: true}`
when the body is not JSON.  The second component lists the outbound calls
performed. -/
def forwardToBackend (backendUrl path : String) (args : Json) (net : FetchOutcome) :
    Except ThrownError Json × List FetchCall :=
  if backendUrl = "" then
    (.error (.message "STUDYOS_BACKEND_URL is not set"), [])
  else
    let call : FetchCall := ⟨backendUrl ++ path, args⟩
    match net with
    | .throws e => (.error (.rawFetch e), [call])
    | .response status textBody parsedJson =>
      if 200 ≤ status ∧ status ≤ 299 then
        match parsedJson with
        | some j => (.ok j, [call])
        | none => (.ok (.obj [("ok", .bool true)]), [call])
      else
        (.error (.message ("Backend " ++ path ++ " failed: " ++
          toString status ++ " " ++ textBody.getD "")), [call])

/-- A registered tool: its zod input schema, the backend path its handler
forwards to, and the fixed text acknowledgment its handler returns. -/
structure ToolSpec where
  schema : List (String × FieldSpec)
  path : String
  ack : String

/-- The tool registry built by the three `server.registerTool` calls of
src/server.ts; each handler forwards the normalized arguments to the
same-named backend path and returns the backend data as structured content
next to a fixed text block. -/
def registry : List (String × ToolSpec) :=
  [("ingest_content",
    ⟨ingestInput, "/ingest_content",
     "I saved this content into your StudyOS knowledge base."⟩),
   ("search_content",
    ⟨searchInput, "/search_content",
     "Here are the most relevant chunks I found in your StudyOS knowledge base."⟩),
   ("log_completion_result",
    ⟨logInput, "/log_completion_result",
     "I logged this assignment outcome so I can learn from it in the future."⟩)]

/-- The dual-channel result of a successful invocation: the structured
payload plus the ordered text blocks. -/
structure ToolResult where
  structuredContent : Json
  content : List String

/-- Outcome of dispatching one invocation. -/
inductive DispatchResult where
  | success : ToolResult → DispatchResult
  | invalidArgs : List String → DispatchResult
  | executionFailure : ThrownError → DispatchResult
  | unknownTool : DispatchResult

/-- Dispatch of one invocation: registry lookup, zod validation of the raw
arguments (a failure carries the offending field names and the handler is
never invoked), then the handler runs — one gateway call whose thrown
errors are caught and reported as execution failures.  The second component
lists the outbound network calls performed. -/
def dispatch (backendUrl toolName : String) (raw : Json) (net : FetchOutcome) :
    DispatchResult × List FetchCall :=
  match lookupKey toolName registry with
  | none => (.unknownTool, [])
  | some t =>
    match raw with
    | .obj kvs =>
      match parseObj t.schema kvs with
      | .error es => (.invalidArgs es, [])
      | .ok norm =>
        match forwardToBackend backendUrl t.path (.obj norm) net with
        | (.ok data, calls) => (.success ⟨data, [t.ack]⟩, calls)
        | (.error e, calls) => (.executionFailure e, calls)
    | _ => (.invalidArgs ["arguments"], [])

/-- JSON-Schema-like types appearing in a manifest `input_schema`, extended
with the renderings a faithful translation of the zod fields would need. -/
inductive JSchemaType where
  | jstr : JSchemaType
  | jstrOrNull : JSchemaType
  | jnum : JSchemaType
  | jnumOrNull : JSchemaType
  | jarrStr : JSchemaType
  | jarrStrOrNull : JSchemaType
  | jenum : List String → JSchemaType
  | jenumOrNull : List String → JSchemaType
deriving DecidableEq, BEq

/-- One tool entry of the static manifest literal. -/
structure ManifestTool where
  name : String
  properties : List (String × JSchemaType)
  required : List String

/-- The ingest_content entry of the static manifest literal of src/server.ts
(lines 168-184). -/
def ingestManifest : ManifestTool :=
  ⟨"ingest_content",
   [("raw_text", .jstr),
    ("course", .jstrOrNull),
    ("type", .jstrOrNull),
    ("subtopic", .jstrOrNull),
    ("assignment_type", .jstrOrNull),
    ("source_name", .jstrOrNull)],
   ["raw_text"]⟩

/-- The search_content entry of the static manifest literal of src/server.ts
(lines 185-205). -/
def searchManifest : ManifestTool :=
  ⟨"search_content",
   [("query", .jstr),
    ("course", .jstrOrNull),
    ("types", .jarrStr),
    ("subtopic", .jstrOrNull),
    ("assignment_type", .jstrOrNull),
    ("top_k", .jnum),
    ("threshold", .jnum)],
   ["query"]⟩

/-- The log_completion_result entry of the static manifest literal of
src/server.ts (lines 206-224). -/
def logManifest : ManifestTool :=
  ⟨"log_completion_result",
   [("original_prompt", .jstr),
    ("model_answer", .jstr),
    ("outcome", .jstr),
    ("course", .jstrOrNull),
    ("assignment_type", .jstrOrNull),
    ("subtopic", .jstrOrNull),
    ("score", .jnum),
    ("teacher_feedback", .jstrOrNull)],
   ["original_prompt", "model_answer", "outcome"]⟩

/-- The static `/.well-known/mcp.json` manifest literal of src/server.ts
(lines 164-226), transcribed entry by entry. -/
def manifest : List ManifestTool :=
  [ingestManifest, searchManifest, logManifest]

/-- The JSON-Schema type a faithful manifest entry would list for a zod
field: the base type, widened with null exactly when the field is
`.nullable()`. -/
def fieldJType (f : FieldSpec) : JSchemaType :=
  match f.base, f.nullable with
  | .string, false => .jstr
  | .string, true => .jstrOrNull
  | .number, false => .jnum
  | .number, true => .jnumOrNull
  | .arrayOfString, false => .jarrStr
  | .arrayOfString, true => .jarrStrOrNull
  | .enumOf vs, false => .jenum vs
  | .enumOf vs, true => .jenumOrNull vs

/-- The fields a zod object schema requires to be present: not optional and
without a default. -/
def requiredOf (s : List (String × FieldSpec)) : List String :=
  (s.filter (fun p => !p.2.optional && p.2.dflt.isNone)).map Prod.fst

/-- Schema field names declared by a validation schema. -/
def schemaNames (s : List (String × FieldSpec)) : List String :=
  s.map Prod.fst

/-- Property names listed by a manifest entry. -/
def propNames (m : ManifestTool) : List String :=
  m.properties.map Prod.fst

/-- Validator fields absent from the manifest entry's property list. -/
def missingFromManifest (m : ManifestTool) (s : List (String × FieldSpec)) : List String :=
  (schemaNames s).filter (fun n => !(propNames m).contains n)

/-- Manifest properties that the validation schema does not declare. -/
def extraInManifest (m : ManifestTool) (s : List (String × FieldSpec)) : List String :=
  (propNames m).filter (fun n => !(schemaNames s).contains n)

/-- Fields listed by both sides whose manifest type differs from the
faithful rendering of the zod field's type and nullability. -/
def driftFields (m : ManifestTool) (s : List (String × FieldSpec)) : List String :=
  (s.filter (fun p =>
    match lookupKey p.1 m.properties with
    | some t => t != fieldJType p.2
    | none => false)).map Prod.fst

/-- Equality of two name lists as sets. -/
def sameNameSet (a b : List String) : Bool :=
  a.all b.contains && b.all a.contains

/-- Structural identity of a manifest entry and a validation schema, as the
spec demands it: same property-name set, same per-field type and
nullability, same required-field list. -/
def schemaMatches (m : ManifestTool) (s : List (String × FieldSpec)) : Bool :=
  sameNameSet (propNames m) (schemaNames s) &&
  (s.all fun p => lookupKey p.1 m.properties == some (fieldJType p.2)) &&
  m.required == requiredOf s

/-! ### Helper lemmas about lookup and zod object parsing -/

/-- Looking up a name absent from the key list yields none. -/
theorem lookupKey_eq_none {α : Type} (n : String) :
    ∀ l : List (String × α), n ∉ l.map Prod.fst → lookupKey n l = none := by
  intro l
  induction l with
  | nil => intro _; rfl
  | cons hd tl ih =>
    obtain ⟨m, v⟩ := hd
    intro h
    simp only [List.map_cons, List.mem_cons] at h
    push_neg at h
    simp only [lookupKey]
    rw [if_neg fun he => h.1 he.symm]
    exact ih h.2

/-- Lookup skips a leading pair with a different key. -/
theorem lookupKey_cons_ne {α : Type} (n k : String) (v : α) (l : List (String × α))
    (h : k ≠ n) : lookupKey n ((k, v) :: l) = lookupKey n l := by
  simp only [lookupKey]
  rw [if_neg h]

/-- Looking up the very name just added with `addField`. -/
theorem lookupKey_addField_self (name : String) (v : Option Json)
    (tail : List (String × Json)) :
    lookupKey name (addField name v tail) =
      match v with
      | some j => some j
      | none => lookupKey name tail := by
  cases v with
  | none => rfl
  | some j => simp [addField, lookupKey]

/-- Adding a field with a different name does not affect a lookup. -/
theorem lookupKey_addField_ne (n name : String) (v : Option Json)
    (tail : List (String × Json)) (h : n ≠ name) :
    lookupKey n (addField name v tail) = lookupKey n tail := by
  cases v with
  | none => rfl
  | some j =>
    simp only [addField, lookupKey]
    rw [if_neg fun he => h he.symm]

/-- Names of a membership pair sit in the mapped name list. -/
theorem name_mem_of_pair_mem {α : Type} {name : String} {f : α}
    {s : List (String × α)} (h : (name, f) ∈ s) : name ∈ s.map Prod.fst :=
  List.mem_map.mpr ⟨(name, f), h, rfl⟩

/-- A successfully parsed object only contains field names declared by the
schema: unknown raw keys are stripped. -/
theorem parseObj_names_subset :
    ∀ (s : List (String × FieldSpec)) (kvs norm : List (String × Json)),
      parseObj s kvs = .ok norm → ∀ n ∈ norm.map Prod.fst, n ∈ s.map Prod.fst := by
  intro s
  induction s with
  | nil =>
    intro kvs norm h n hn
    simp only [parseObj] at h
    obtain rfl : ([] : List (String × Json)) = norm := by
      simpa using h
    simp at hn
  | cons hd rest ih =>
    obtain ⟨n0, f0⟩ := hd
    intro kvs norm h n hn
    cases h0 : parseField f0 (lookupKey n0 kvs) with
    | error e =>
      cases h1 : parseObj rest kvs <;> simp [parseObj, h0, h1] at h
    | ok v =>
      cases h1 : parseObj rest kvs with
      | error es => simp [parseObj, h0, h1] at h
      | ok tail =>
        simp only [parseObj, h0, h1, Except.ok.injEq] at h
        subst h
        cases v with
        | none =>
          simp only [addField] at hn
          exact List.mem_cons_of_mem _ (ih kvs tail h1 n hn)
        | some j =>
          simp only [addField, List.map_cons, List.mem_cons] at hn
          rcases hn with hn | hn
          · simp [hn]
          · exact List.mem_cons_of_mem _ (ih kvs tail h1 n hn)

/-- If one declared field rejects its raw value, the whole object parse
fails, with that field's name among the reported names. -/
theorem parseObj_error_of_field :
    ∀ (s : List (String × FieldSpec)) (kvs : List (String × Json))
      (name : String) (f : FieldSpec),
      (name, f) ∈ s → parseField f (lookupKey name kvs) = .error () →
      ∃ es, parseObj s kvs = .error es ∧ name ∈ es := by
  intro s
  induction s with
  | nil => intro kvs name f hm _; cases hm
  | cons hd rest ih =>
    obtain ⟨n0, f0⟩ := hd
    intro kvs name f hm hf
    rcases List.mem_cons.mp hm with heq | hmem
    · obtain ⟨rfl, rfl⟩ := Prod.mk.injEq .. ▸ heq
      cases h1 : parseObj rest kvs with
      | ok tail =>
        exact ⟨[name], by simp only [parseObj, hf, h1], by simp⟩
      | error es =>
        exact ⟨name :: es, by simp only [parseObj, hf, h1], by simp⟩
    · obtain ⟨es, hes, hmm⟩ := ih kvs name f hmem hf
      cases h0 : parseField f0 (lookupKey n0 kvs) with
      | ok v =>
        exact ⟨es, by simp only [parseObj, h0, hes], hmm⟩
      | error e =>
        exact ⟨n0 :: es, by simp only [parseObj, h0, hes], List.mem_cons_of_mem _ hmm⟩

/-- On a successful parse of a schema with distinct field names, each
declared field's normalized value is exactly what `parseField` produced
from the raw lookup — in particular defaults are substituted exactly when
the field is absent. -/
theorem parseObj_ok_field :
    ∀ (s : List (String × FieldSpec)) (kvs norm : List (String × Json))
      (name : String) (f : FieldSpec),
      (s.map Prod.fst).Nodup → parseObj s kvs = .ok norm → (name, f) ∈ s →
      ∃ v, parseField f (lookupKey name kvs) = .ok v ∧ lookupKey name norm = v := by
  intro s
  induction s with
  | nil => intro kvs norm name f _ _ hm; cases hm
  | cons hd rest ih =>
    obtain ⟨n0, f0⟩ := hd
    intro kvs norm name f hnd h hm
    simp only [List.map_cons, List.nodup_cons] at hnd
    cases h0 : parseField f0 (lookupKey n0 kvs) with
    | error e =>
      cases h1 : parseObj rest kvs <;> simp [parseObj, h0, h1] at h
    | ok v0 =>
    cases h1 : parseObj rest kvs with
    | error es => simp [parseObj, h0, h1] at h
    | ok tail =>
    simp only [parseObj, h0, h1, Except.ok.injEq] at h
    subst h
    rcases List.mem_cons.mp hm with heq | hmem
    · obtain ⟨rfl, rfl⟩ := Prod.mk.injEq .. ▸ heq
      refine ⟨v0, h0, ?_⟩
      rw [lookupKey_addField_self]
      cases v0 with
      | some j => rfl
      | none =>
        exact lookupKey_eq_none name tail
          fun hin => hnd.1 (parseObj_names_subset rest kvs tail h1 name hin)
    · have hne : name ≠ n0 := fun he => hnd.1 (he ▸ name_mem_of_pair_mem hmem)
      obtain ⟨v, hv, hl⟩ := ih kvs tail name f hnd.2 h1 hmem
      exact ⟨v, hv, by rw [lookupKey_addField_ne name n0 v0 tail hne]; exact hl⟩

/-- Parsing only reads the raw keys declared by the schema. -/
theorem parseObj_congr :
    ∀ (s : List (String × FieldSpec)) (kvs1 kvs2 : List (String × Json)),
      (∀ n ∈ s.map Prod.fst, lookupKey n kvs1 = lookupKey n kvs2) →
      parseObj s kvs1 = parseObj s kvs2 := by
  intro s
  induction s with
  | nil => intro _ _ _; rfl
  | cons hd rest ih =>
    obtain ⟨n0, f0⟩ := hd
    intro kvs1 kvs2 h
    have h0 : lookupKey n0 kvs1 = lookupKey n0 kvs2 := h n0 (by simp)
    have hr := ih kvs1 kvs2 fun n hn => h n (by simp [hn])
    simp only [parseObj, h0, hr]

/-- A raw key the schema does not declare can be dropped without changing
the result of validation: unknown keys never cause failure and are
stripped from the normalized output. -/
theorem parseObj_strip_unknown (s : List (String × FieldSpec)) (k : String)
    (v : Json) (kvs : List (String × Json)) (h : ¬ k ∈ s.map Prod.fst) :
    parseObj s ((k, v) :: kvs) = parseObj s kvs :=
  parseObj_congr s _ _ fun n hn =>
    lookupKey_cons_ne n k v kvs fun he => h (he ▸ hn)

/-! ### Claim theorems -/

/-- Claim C1, as stated, is false: the manifest entry for ingest_content is
not structurally identical to the `ingestInput` zod schema used for live
validation — among others, the validator-declared property
"original_prompt" is missing from the manifest's property list. -/
theorem manifest_drift_cex :
    ingestManifest ∈ manifest ∧
    ingestManifest.name = "ingest_content" ∧
    schemaMatches ingestManifest ingestInput = false ∧
    "original_prompt" ∈ schemaNames ingestInput ∧
    ¬ "original_prompt" ∈ propNames ingestManifest :=
  ⟨List.mem_cons_self _ _, rfl, rfl, by decide, by decide⟩

/-- Claim C1 amended: the manifest's required-field lists match live
validation for all three tools, and the property-name sets match for
search_content and log_completion_result; but the ingest_content manifest
entry omits five validator-declared optional properties, and the per-field
types drift for search_content's "types" (nullability dropped) and
log_completion_result's "outcome" (enum widened to plain string) and
"score" (nullability dropped). -/
theorem manifest_partial_agreement :
    (ingestManifest.required = requiredOf ingestInput ∧
     searchManifest.required = requiredOf searchInput ∧
     logManifest.required = requiredOf logInput) ∧
    (extraInManifest ingestManifest ingestInput = [] ∧
     missingFromManifest ingestManifest ingestInput =
       ["original_prompt", "model_answer", "outcome", "score", "teacher_feedback"]) ∧
    (sameNameSet (propNames searchManifest) (schemaNames searchInput) = true ∧
     sameNameSet (propNames logManifest) (schemaNames logInput) = true) ∧
    (driftFields ingestManifest ingestInput = [] ∧
     driftFields searchManifest searchInput = ["types"] ∧
     driftFields logManifest logInput = ["outcome", "score"]) :=
  ⟨⟨rfl, rfl, rfl⟩, ⟨rfl, rfl⟩, ⟨rfl, rfl⟩, ⟨rfl, rfl, rfl⟩⟩

/-- Claim C2, as stated, is false: when `fetch` rejects with a transport
exception, `forwardToBackend` has no catch around it, so the raw exception
propagates to the caller unreclassified, carrying no path information. -/
theorem transport_leak_cex :
    forwardToBackend "http://backend" "/search_content" (.obj []) (.throws "connection reset") =
      (.error (.rawFetch "connection reset"),
       [⟨"http://backend/search_content", .obj []⟩]) ∧
    reclassified (.rawFetch "connection reset") = false :=
  ⟨rfl, rfl⟩

/-- Claim C2 amended: whenever the collaborator base address is configured
and the underlying connection fails, `forwardToBackend` propagates the raw
transport exception unmodified — it is not reclassified as a connectivity
error and carries only the transport's own message, not the path. -/
theorem transport_leak (url path : String) (args : Json) (e : String)
    (hu : url ≠ "") :
    forwardToBackend url path args (.throws e) =
      (.error (.rawFetch e), [⟨url ++ path, args⟩]) ∧
    reclassified (.rawFetch e) = false := by
  refine ⟨?_, rfl⟩
  simp [forwardToBackend, hu]

/-- Witness for the amended C2 at a concrete configured URL. -/
theorem transport_leak_witness :
    ("http://b" : String) ≠ "" ∧
    (forwardToBackend "http://b" "/p" (.obj []) (.throws "boom") =
      (.error (.rawFetch "boom"), [⟨"http://b/p", .obj []⟩]) ∧
     reclassified (.rawFetch "boom") = false) :=
  ⟨by decide, transport_leak "http://b" "/p" (.obj []) "boom" (by decide)⟩

/-- Claim C3, as stated, is false: an explicit null for top_k or threshold
is not preserved — `z.number().optional().default(...)` is not nullable,
so validation rejects the invocation naming the field. -/
theorem null_default_cex :
    parseObj searchInput [("query", .str "q"), ("top_k", .null)] = .error ["top_k"] ∧
    parseObj searchInput [("query", .str "q"), ("threshold", .null)] = .error ["threshold"] :=
  ⟨rfl, rfl⟩

/-- Claim C3 amended: when top_k (resp. threshold) is absent from the raw
arguments, validation substitutes the schema-declared default 8
(resp. 0.3) exactly once into the normalized arguments; an invocation
carrying an explicit null for either field never validates at all —
the null is rejected, not replaced by the default. -/
theorem search_defaults (kvs norm : List (String × Json))
    (h : parseObj searchInput kvs = .ok norm) :
    (lookupKey "top_k" kvs = none → lookupKey "top_k" norm = some (.num 8)) ∧
    (lookupKey "threshold" kvs = none → lookupKey "threshold" norm = some (.num (3/10))) ∧
    lookupKey "top_k" kvs ≠ some .null ∧
    lookupKey "threshold" kvs ≠ some .null := by
  have hnd : (searchInput.map Prod.fst).Nodup := by decide
  have hmt : ("top_k", optionalDefault znumber (Json.num 8)) ∈ searchInput := by
    unfold searchInput
    repeat first | exact List.mem_cons_self _ _ | apply List.mem_cons_of_mem
  have hmh : ("threshold", optionalDefault znumber (Json.num (3/10))) ∈ searchInput := by
    unfold searchInput
    repeat first | exact List.mem_cons_self _ _ | apply List.mem_cons_of_mem
  refine ⟨?_, ?_, ?_, ?_⟩
  · intro habs
    obtain ⟨v, hv, hl⟩ := parseObj_ok_field searchInput kvs norm _ _ hnd h hmt
    rw [habs] at hv
    have hv' : Except.ok (ε := Unit) (some (Json.num 8)) = Except.ok v := hv
    injection hv' with hv'
    rw [hl, ← hv']
  · intro habs
    obtain ⟨v, hv, hl⟩ := parseObj_ok_field searchInput kvs norm _ _ hnd h hmh
    rw [habs] at hv
    have hv' : Except.ok (ε := Unit) (some (Json.num (3/10))) = Except.ok v := hv
    injection hv' with hv'
    rw [hl, ← hv']
  · intro hnull
    obtain ⟨v, hv, _⟩ := parseObj_ok_field searchInput kvs norm _ _ hnd h hmt
    rw [hnull] at hv
    exact Except.noConfusion (show Except.error () = Except.ok v from hv)
  · intro hnull
    obtain ⟨v, hv, _⟩ := parseObj_ok_field searchInput kvs norm _ _ hnd h hmh
    rw [hnull] at hv
    exact Except.noConfusion (show Except.error () = Except.ok v from hv)

/-- Witness for the amended C3: parsing `{query: "p"}` substitutes both
defaults, and the substituted values are found in the normalized output. -/
theorem search_defaults_witness :
    parseObj searchInput [("query", Json.str "p")] =
      .ok [("query", Json.str "p"), ("top_k", Json.num 8), ("threshold", Json.num (3/10))] ∧
    lookupKey "top_k"
      [("query", Json.str "p"), ("top_k", Json.num 8), ("threshold", Json.num (3/10))] =
        some (.num 8) ∧
    lookupKey "threshold"
      [("query", Json.str "p"), ("top_k", Json.num 8), ("threshold", Json.num (3/10))] =
        some (.num (3/10)) :=
  ⟨rfl,
   (search_defaults [("query", Json.str "p")]
     [("query", Json.str "p"), ("top_k", Json.num 8), ("threshold", Json.num (3/10))] rfl).1 rfl,
   (search_defaults [("query", Json.str "p")]
     [("query", Json.str "p"), ("top_k", Json.num 8), ("threshold", Json.num (3/10))] rfl).2.1 rfl⟩

/-- Claim C4: with the collaborator base address unset or empty, every
`forwardToBackend` call — any path, any payload, any network behaviour —
fails immediately with the specific unconfigured-collaborator error and
performs zero outbound calls; in particular dispatching search_content
with `{query: "photosynthesis"}` in that state yields exactly that error
with no network I/O. -/
theorem unconfigured_fails_fast :
    (∀ (path : String) (args : Json) (net : FetchOutcome),
      forwardToBackend "" path args net =
        (.error (.message "STUDYOS_BACKEND_URL is not set"), [])) ∧
    (∀ net : FetchOutcome,
      dispatch "" "search_content" (.obj [("query", .str "photosynthesis")]) net =
        (.executionFailure (.message "STUDYOS_BACKEND_URL is not set"), [])) :=
  ⟨fun _ _ _ => rfl, fun _ => rfl⟩

/-- Claim C5: a collaborator status outside the 200-299 success range makes
`forwardToBackend` throw a backend-rejected error whose message carries the
numeric status and the response body decoded as text (empty when the body
is unreadable); the failure is a well-typed thrown value, not a crash. -/
theorem backend_rejected (url path : String) (args : Json) (st : Nat)
    (tb : Option String) (pj : Option Json)
    (hu : url ≠ "") (hs : ¬(200 ≤ st ∧ st ≤ 299)) :
    forwardToBackend url path args (.response st tb pj) =
      (.error (.message ("Backend " ++ path ++ " failed: " ++ toString st ++ " " ++ tb.getD "")),
       [⟨url ++ path, args⟩]) ∧
    reclassified (.message ("Backend " ++ path ++ " failed: " ++ toString st ++ " " ++ tb.getD ""))
      = true := by
  refine ⟨?_, rfl⟩
  simp [forwardToBackend, hu, hs]

/-- Witness for C5: a 500 response with body "db error" yields an error
carrying 500 and "db error". -/
theorem backend_rejected_witness :
    ("http://b" : String) ≠ "" ∧ ¬((200 : Nat) ≤ 500 ∧ (500 : Nat) ≤ 299) ∧
    (forwardToBackend "http://b" "/search_content" (.obj [])
        (.response 500 (some "db error") none) =
      (.error (.message "Backend /search_content failed: 500 db error"),
       [⟨"http://b/search_content", .obj []⟩]) ∧
     reclassified (.message "Backend /search_content failed: 500 db error") = true) :=
  ⟨by decide, by decide,
   backend_rejected "http://b" "/search_content" (.obj []) 500 (some "db error") none
     (by decide) (by decide)⟩

/-- Claim C6: a success-range status whose body is not parseable as JSON
does not fail the gateway — `forwardToBackend` returns the canonical
acknowledgment `{ok: true}`. -/
theorem malformed_body_degrades (url path : String) (args : Json) (st : Nat)
    (tb : Option String) (hu : url ≠ "") (h1 : 200 ≤ st) (h2 : st ≤ 299) :
    forwardToBackend url path args (.response st tb none) =
      (.ok (.obj [("ok", .bool true)]), [⟨url ++ path, args⟩]) := by
  simp [forwardToBackend, hu, h1, h2]

/-- Witness for C6 at status 200 with a non-JSON text body. -/
theorem malformed_body_degrades_witness :
    ("http://b" : String) ≠ "" ∧ (200 : Nat) ≤ 200 ∧ (200 : Nat) ≤ 299 ∧
    forwardToBackend "http://b" "/ingest_content" (.obj []) (.response 200 (some "OK!") none) =
      (.ok (.obj [("ok", .bool true)]), [⟨"http://b/ingest_content", .obj []⟩]) :=
  ⟨by decide, by decide, by decide,
   malformed_body_degrades "http://b" "/ingest_content" (.obj []) 200 (some "OK!")
     (by decide) (by decide) (by decide)⟩

/-- Claim C7: a log_completion_result invocation whose outcome is any
string outside {"success", "fail"} fails validation with a diagnostic
naming the outcome field, and the handler is never invoked — zero
collaborator calls are made. -/
theorem enum_out_of_set_rejected (url : String) (net : FetchOutcome)
    (kvs : List (String × Json)) (s : String)
    (h : lookupKey "outcome" kvs = some (.str s))
    (hs : List.contains ["success", "fail"] s = false) :
    ∃ es, dispatch url "log_completion_result" (.obj kvs) net = (.invalidArgs es, []) ∧
      "outcome" ∈ es := by
  have hf : parseField (zenum ["success", "fail"]) (lookupKey "outcome" kvs) = .error () := by
    rw [h]
    have hs' : ¬ s = "success" ∧ ¬ s = "fail" := by simpa using hs
    simp [parseField, baseAccepts, zenum, hs'.1, hs'.2]
  have hm : ("outcome", zenum ["success", "fail"]) ∈ logInput := by
    unfold logInput
    repeat first | exact List.mem_cons_self _ _ | apply List.mem_cons_of_mem
  obtain ⟨es, hes, hmem⟩ := parseObj_error_of_field logInput kvs "outcome" _ hm hf
  refine ⟨es, ?_, hmem⟩
  have hlook : lookupKey "log_completion_result" registry =
      some ⟨logInput, "/log_completion_result",
        "I logged this assignment outcome so I can learn from it in the future."⟩ := rfl
  simp only [dispatch, hlook, hes]

/-- Witness for C7 at a concrete invocation with outcome "maybe". -/
theorem enum_out_of_set_rejected_witness :
    lookupKey "outcome"
      [("original_prompt", Json.str "p"), ("model_answer", Json.str "a"),
       ("outcome", Json.str "maybe")] = some (.str "maybe") ∧
    List.contains ["success", "fail"] "maybe" = false ∧
    ∃ es, dispatch "http://b" "log_completion_result"
        (.obj [("original_prompt", Json.str "p"), ("model_answer", Json.str "a"),
               ("outcome", Json.str "maybe")])
        (.response 200 none none) = (.invalidArgs es, []) ∧ "outcome" ∈ es :=
  ⟨rfl, by decide,
   enum_out_of_set_rejected "http://b" (.response 200 none none)
     [("original_prompt", Json.str "p"), ("model_answer", Json.str "a"),
      ("outcome", Json.str "maybe")] "maybe" rfl (by decide)⟩

/-- Claim C8: omitting a required field (raw_text for ingest_content,
query for search_content, original_prompt / model_answer / outcome for
log_completion_result) always makes validation fail with details naming
that field; no normalized arguments are ever produced. -/
theorem required_field_missing :
    (∀ kvs, lookupKey "raw_text" kvs = none →
      ∃ es, parseObj ingestInput kvs = .error es ∧ "raw_text" ∈ es) ∧
    (∀ kvs, lookupKey "query" kvs = none →
      ∃ es, parseObj searchInput kvs = .error es ∧ "query" ∈ es) ∧
    (∀ kvs, lookupKey "original_prompt" kvs = none →
      ∃ es, parseObj logInput kvs = .error es ∧ "original_prompt" ∈ es) ∧
    (∀ kvs, lookupKey "model_answer" kvs = none →
      ∃ es, parseObj logInput kvs = .error es ∧ "model_answer" ∈ es) ∧
    (∀ kvs, lookupKey "outcome" kvs = none →
      ∃ es, parseObj logInput kvs = .error es ∧ "outcome" ∈ es) := by
  refine ⟨?_, ?_, ?_, ?_, ?_⟩
  · intro kvs h
    refine parseObj_error_of_field ingestInput kvs "raw_text" zstring ?_ (by rw [h]; rfl)
    unfold ingestInput
    repeat first | exact List.mem_cons_self _ _ | apply List.mem_cons_of_mem
  · intro kvs h
    refine parseObj_error_of_field searchInput kvs "query" zstring ?_ (by rw [h]; rfl)
    unfold searchInput
    repeat first | exact List.mem_cons_self _ _ | apply List.mem_cons_of_mem
  · intro kvs h
    refine parseObj_error_of_field logInput kvs "original_prompt" zstring ?_ (by rw [h]; rfl)
    unfold logInput
    repeat first | exact List.mem_cons_self _ _ | apply List.mem_cons_of_mem
  · intro kvs h
    refine parseObj_error_of_field logInput kvs "model_answer" zstring ?_ (by rw [h]; rfl)
    unfold logInput
    repeat first | exact List.mem_cons_self _ _ | apply List.mem_cons_of_mem
  · intro kvs h
    refine parseObj_error_of_field logInput kvs "outcome" (zenum ["success", "fail"])
      ?_ (by rw [h]; rfl)
    unfold logInput
    repeat first | exact List.mem_cons_self _ _ | apply List.mem_cons_of_mem

/-- Witness for C8: each required field missing from the empty raw object
is reported by name. -/
theorem required_field_missing_witness :
    lookupKey "raw_text" ([] : List (String × Json)) = none ∧
    (∃ es, parseObj ingestInput [] = .error es ∧ "raw_text" ∈ es) ∧
    (∃ es, parseObj searchInput [] = .error es ∧ "query" ∈ es) ∧
    (∃ es, parseObj logInput [] = .error es ∧ "original_prompt" ∈ es) ∧
    (∃ es, parseObj logInput [] = .error es ∧ "model_answer" ∈ es) ∧
    (∃ es, parseObj logInput [] = .error es ∧ "outcome" ∈ es) :=
  ⟨rfl, required_field_missing.1 [] rfl, required_field_missing.2.1 [] rfl,
   required_field_missing.2.2.1 [] rfl, required_field_missing.2.2.2.1 [] rfl,
   required_field_missing.2.2.2.2 [] rfl⟩

/-- Claim C9: whenever an invocation's handler completes successfully and
the collaborator's response body parsed as JSON, the assembled ToolResult
carries a non-empty text content sequence alongside structured content
equal to the collaborator's parsed response body — never one without the
other. -/
theorem success_dual_channel (url name : String) (raw : Json) (st : Nat)
    (tb : Option String) (j : Json) (r : ToolResult) (calls : List FetchCall)
    (h : dispatch url name raw (.response st tb (some j)) = (.success r, calls)) :
    r.content ≠ [] ∧ r.structuredContent = j := by
  simp only [dispatch] at h
  cases hl : lookupKey name registry <;> rw [hl] at h
  · simp at h
  case some t =>
  cases raw <;> simp at h
  case obj kvs =>
  cases hp : parseObj t.schema kvs <;> rw [hp] at h
  · simp at h
  case ok norm =>
  by_cases hu : url = ""
  · simp [forwardToBackend, hu] at h
  · by_cases hs : 200 ≤ st ∧ st ≤ 299
    · simp [forwardToBackend, hu, hs] at h
      obtain ⟨h1, -⟩ := h
      rw [← h1]
      exact ⟨by simp, rfl⟩
    · simp [forwardToBackend, hu, hs] at h

/-- Witness for C9: the ingest_content scenario — raw arguments containing
only raw_text are forwarded as exactly that object to
base/ingest_content, and a 200 response with body `{"id": 42}` yields
structured content `{"id": 42}` plus a non-empty text acknowledgment. -/
theorem success_dual_channel_witness :
    dispatch "http://base" "ingest_content"
        (.obj [("raw_text", .str "Newtons laws of motion")])
        (.response 200 none (some (.obj [("id", .num 42)]))) =
      (.success ⟨.obj [("id", .num 42)],
        ["I saved this content into your StudyOS knowledge base."]⟩,
       [⟨"http://base/ingest_content", .obj [("raw_text", .str "Newtons laws of motion")]⟩]) ∧
    (["I saved this content into your StudyOS knowledge base."] ≠ ([] : List String) ∧
     Json.obj [("id", Json.num 42)] = Json.obj [("id", Json.num 42)]) :=
  ⟨rfl,
   success_dual_channel "http://base" "ingest_content"
     (.obj [("raw_text", .str "Newtons laws of motion")]) 200 none
     (.obj [("id", .num 42)])
     ⟨.obj [("id", .num 42)], ["I saved this content into your StudyOS knowledge base."]⟩
     [⟨"http://base/ingest_content", .obj [("raw_text", .str "Newtons laws of motion")]⟩]
     rfl⟩

/-- Claim C10: for each tool's schema, validation silently strips raw
argument fields not declared by the schema: a normalized result only
contains declared field names (so the forwarded JSON body does too), and
dropping an undeclared key never changes the outcome of validation — its
presence is never by itself a failure. -/
theorem unknown_keys_stripped :
    (∀ kvs norm, parseObj ingestInput kvs = .ok norm →
      ∀ n ∈ norm.map Prod.fst, n ∈ schemaNames ingestInput) ∧
    (∀ kvs norm, parseObj searchInput kvs = .ok norm →
      ∀ n ∈ norm.map Prod.fst, n ∈ schemaNames searchInput) ∧
    (∀ kvs norm, parseObj logInput kvs = .ok norm →
      ∀ n ∈ norm.map Prod.fst, n ∈ schemaNames logInput) ∧
    (∀ (k : String) (v : Json) kvs, ¬ k ∈ schemaNames ingestInput →
      parseObj ingestInput ((k, v) :: kvs) = parseObj ingestInput kvs) ∧
    (∀ (k : String) (v : Json) kvs, ¬ k ∈ schemaNames searchInput →
      parseObj searchInput ((k, v) :: kvs) = parseObj searchInput kvs) ∧
    (∀ (k : String) (v : Json) kvs, ¬ k ∈ schemaNames logInput →
      parseObj logInput ((k, v) :: kvs) = parseObj logInput kvs) :=
  ⟨fun kvs norm h => parseObj_names_subset ingestInput kvs norm h,
   fun kvs norm h => parseObj_names_subset searchInput kvs norm h,
   fun kvs norm h => parseObj_names_subset logInput kvs norm h,
   fun k v kvs h => parseObj_strip_unknown ingestInput k v kvs h,
   fun k v kvs h => parseObj_strip_unknown searchInput k v kvs h,
   fun k v kvs h => parseObj_strip_unknown logInput k v kvs h⟩

/-- Witness for C10: a raw object with the unknown key "bogus" validates
exactly like the object without it, and the normalized result mentions
only declared names. -/
theorem unknown_keys_stripped_witness :
    (¬ "bogus" ∈ schemaNames ingestInput) ∧
    parseObj ingestInput [("bogus", Json.bool true), ("raw_text", Json.str "t")] =
      parseObj ingestInput [("raw_text", Json.str "t")] ∧
    parseObj ingestInput [("raw_text", Json.str "t")] = .ok [("raw_text", Json.str "t")] ∧
    (∀ n ∈ [("raw_text", Json.str "t")].map Prod.fst, n ∈ schemaNames ingestInput) :=
  ⟨by decide,
   unknown_keys_stripped.2.2.2.1 "bogus" (Json.bool true) [("raw_text", Json.str "t")]
     (by decide),
   rfl,
   unknown_keys_stripped.1 [("raw_text", Json.str "t")] [("raw_text", Json.str "t")] rfl⟩

end StudyOS
